import Mathlib

/-!
Verification of the multi-source price/FX resolution pipeline of the
`learning` repository (dividend-calculator and plan apps), shallowly
embedded in Lean.  Prices and rates are modelled as rationals, external
data-source calls as explicit environment records, and a call that may
raise an exception as a `Res` value.
-/

namespace Learning

/-- Outcome of a call to an external data source: the call either raised
an exception or returned a value. -/
inductive Res (α : Type) where
  | throw : Res α
  | ok : α → Res α
deriving DecidableEq

/-- Python `a or b` on optional numbers: a present value of `0` is falsy
and falls through to `b`, exactly like `info.get(..) or info.get(..)`. -/
def pyOrQ : Option ℚ → Option ℚ → Option ℚ
  | some x, b => if x = 0 then b else some x
  | none, b => b

/-- Python `a or b` on optional strings: `None` and the empty string are
falsy. -/
def pyOrS : Option String → Option String → Option String
  | some x, b => if x = "" then b else some x
  | none, b => b

/-- Python truthiness of an optional string (`None` and `""` are falsy). -/
def isTruthyS : Option String → Bool
  | none => false
  | some s => !(s == "")

/-- Python `s.endswith(post)`, on the character lists of the strings. -/
def endsWithS (s post : String) : Bool :=
  post.data.isSuffixOf s.data

/-- Core of Python `s.replace(".HK", "")`: drop every occurrence of the
three characters `.HK` from the character list, scanning left to right. -/
def dropHK : List Char → List Char
  | '.' :: 'H' :: 'K' :: rest => dropHK rest
  | c :: rest => c :: dropHK rest
  | [] => []

/-- Python `symbol.replace(".HK", "")`. -/
def replaceHK (s : String) : String :=
  ⟨dropHK s.data⟩

/-- Python `s.zfill(n)`: left-pad a (digit) string with `'0'` up to width
`n`. -/
def zfill (n : Nat) (s : String) : String :=
  if s.length ≥ n then s else ⟨List.replicate (n - s.length) '0' ++ s.data⟩

/-- One record of the `symbols.json` cache: name, last successful price
and its timestamp (each may be missing). -/
structure CacheRecord where
  name : Option String
  last_price : Option ℚ
  last_timestamp : Option String
deriving DecidableEq

/-- The in-memory `symbols_cache` dict, as an insertion-ordered
association list keyed by symbol. -/
abbrev Cache := List (String × CacheRecord)

/-- Dict read: first binding of the key, if any. -/
def cacheLookup (c : Cache) (s : String) : Option CacheRecord :=
  (c.find? (fun p => p.1 == s)).map Prod.snd

/-- Dict write `cache[s] = r`: replace the existing binding in place, or
append a new one (Python dicts preserve insertion order). -/
def cacheUpdate (c : Cache) (s : String) (r : CacheRecord) : Cache :=
  match c with
  | [] => [(s, r)]
  | (k, v) :: rest => if k == s then (s, r) :: rest else (k, v) :: cacheUpdate rest s r

/-- The fields of `yf.Ticker(symbol).info` read by `fetch_price`. -/
structure TickerInfo where
  regularMarketPrice : Option ℚ
  currentPrice : Option ℚ
  previousClose : Option ℚ
  regularMarketPreviousClose : Option ℚ
  shortName : Option String
  longName : Option String
deriving DecidableEq

/-- Responses of the external data sources for one symbol at one point in
time.  A history is a chronological list of (date, close) rows; `Res.throw`
models the call raising an exception.  `ak_daily` is keyed by the code
string actually queried, so the zero-padding transform is observable.
The `bulk1d`, `dl5d` and `dl1mo` fields are the `yf.download` responses
used by the batch path. -/
structure PriceEnv where
  info : Res TickerInfo
  hist5d : Res (List (String × ℚ))
  hist1mo : Res (List (String × ℚ))
  ak_daily : String → Res (List (String × ℚ))
  now : String
  bulk1d : Option ℚ
  dl5d : Res (List (String × ℚ))
  dl1mo : Res (List (String × ℚ))

/-- The dict returned by `normalize` inside `fetch_price`. -/
structure Quote where
  price : Option ℚ
  previous : Option ℚ
  name : Option String
  source : String
  timestamp : Option String
deriving DecidableEq

/-- The all-failed quote `normalize(None, None, None, "none", None)`. -/
def noQuote : Quote :=
  { price := none, previous := none, name := none, source := "none", timestamp := none }

/-- Final fallback of `fetch_price`: return the cached last successful
price if present and truthy (a cached price of `0` is falsy in Python and
is not used); otherwise the all-failed quote.  Never writes the cache. -/
def cacheTier (cache : Cache) (symbol : String) : Quote × Cache :=
  match cacheLookup cache symbol with
  | some r =>
    match r.last_price with
    | some p =>
      if p ≠ 0 then
        ({ price := some p, previous := none, name := r.name,
           source := "cache_fallback", timestamp := r.last_timestamp }, cache)
      else (noQuote, cache)
    | none => (noQuote, cache)
  | none => (noQuote, cache)

/-- AkShare fallback of `fetch_price`: for `.HK` symbols only, query the
daily history keyed by the code zero-padded to five digits; on success
write the cache and return; on exception or empty frame fall through to
the cache tier. -/
def akshareTier (env : PriceEnv) (cache : Cache) (symbol : String) : Quote × Cache :=
  if endsWithS symbol ".HK" then
    match env.ak_daily (zfill 5 (replaceHK symbol)) with
    | Res.throw => cacheTier cache symbol
    | Res.ok df =>
      match df.getLast? with
      | some (ts, c) =>
        ({ price := some c, previous := none, name := some symbol,
           source := "akshare_hk_daily", timestamp := some ts },
         cacheUpdate cache symbol
           { name := some symbol, last_price := some c, last_timestamp := some ts })
      | none => cacheTier cache symbol
  else cacheTier cache symbol

/-- `fetch_price` of `plan/pages/02_股票查詢.py`: live quote, then 5-day
history, then 1-month history (these three inside one `try` block), then
the AkShare fallback for `.HK` symbols, then the cache fallback; every
successful tier writes the cache before returning.  Returns the quote and
the resulting cache state (`save_symbols` persists the whole dict after
each cache write). -/
def fetch_price (env : PriceEnv) (cache : Cache) (symbol : String) : Quote × Cache :=
  match env.info with
  | Res.throw => akshareTier env cache symbol
  | Res.ok i =>
    let price := pyOrQ i.regularMarketPrice i.currentPrice
    let prev := pyOrQ i.previousClose i.regularMarketPreviousClose
    let name := pyOrS i.shortName i.longName
    match price with
    | some p =>
      ({ price := some p, previous := prev, name := name,
         source := "yfinance_realtime", timestamp := some env.now },
       cacheUpdate cache symbol
         { name := name, last_price := some p, last_timestamp := some env.now })
    | none =>
      match env.hist5d with
      | Res.throw => akshareTier env cache symbol
      | Res.ok h5 =>
        match h5.getLast? with
        | some (ts, c) =>
          ({ price := some c, previous := ((h5.reverse.drop 1).head?).map Prod.snd,
             name := name, source := "yfinance_history", timestamp := some ts },
           cacheUpdate cache symbol
             { name := name, last_price := some c, last_timestamp := some ts })
        | none =>
          match env.hist1mo with
          | Res.throw => akshareTier env cache symbol
          | Res.ok h1 =>
            match h1.getLast? with
            | some (ts, c) =>
              ({ price := some c, previous := ((h1.reverse.drop 1).head?).map Prod.snd,
                 name := name, source := "yfinance_history_1mo", timestamp := some ts },
               cacheUpdate cache symbol
                 { name := name, last_price := some c, last_timestamp := some ts })
            | none => akshareTier env cache symbol

/-!  Specification-side cascade.  Modelled from the spec: an ordered
list of tier functions, iterated until the first success; any tier
failure — exception or empty result alike — means "try the next tier".
This is the second definition of the resolver, written from the spec's
words, to be compared with `fetch_price` above. -/

/-- The display name available to the spec cascade (from the live-quote
info when that call returned). -/
def specName (env : PriceEnv) : Option String :=
  match env.info with
  | Res.throw => none
  | Res.ok i => pyOrS i.shortName i.longName

/-- Spec tier 1: live quote; succeeds when a numeric price is returned. -/
def tierLive (env : PriceEnv) (cache : Cache) (symbol : String) : Option (Quote × Cache) :=
  match env.info with
  | Res.throw => none
  | Res.ok i =>
    match pyOrQ i.regularMarketPrice i.currentPrice with
    | some p =>
      some ({ price := some p, previous := pyOrQ i.previousClose i.regularMarketPreviousClose,
              name := pyOrS i.shortName i.longName,
              source := "yfinance_realtime", timestamp := some env.now },
            cacheUpdate cache symbol
              { name := pyOrS i.shortName i.longName, last_price := some p,
                last_timestamp := some env.now })
    | none => none

/-- Spec tiers 2 and 3: a close-history window; succeeds when the window
has at least one row, taking the most recent close. -/
def tierHist (h : Res (List (String × ℚ))) (src : String) (name : Option String)
    (cache : Cache) (symbol : String) : Option (Quote × Cache) :=
  match h with
  | Res.throw => none
  | Res.ok l =>
    match l.getLast? with
    | some (ts, c) =>
      some ({ price := some c, previous := ((l.reverse.drop 1).head?).map Prod.snd,
              name := name, source := src, timestamp := some ts },
            cacheUpdate cache symbol
              { name := name, last_price := some c, last_timestamp := some ts })
    | none => none

/-- Spec tier 4: alternate regional source for `.HK` symbols, keyed by the
zero-padded code. -/
def tierAk (env : PriceEnv) (cache : Cache) (symbol : String) : Option (Quote × Cache) :=
  if endsWithS symbol ".HK" then
    match env.ak_daily (zfill 5 (replaceHK symbol)) with
    | Res.throw => none
    | Res.ok df =>
      match df.getLast? with
      | some (ts, c) =>
        some ({ price := some c, previous := none, name := some symbol,
                source := "akshare_hk_daily", timestamp := some ts },
              cacheUpdate cache symbol
                { name := some symbol, last_price := some c, last_timestamp := some ts })
      | none => none
  else none

/-- Spec tier 5: cache fallback, with the original timestamp preserved. -/
def tierCacheOpt (cache : Cache) (symbol : String) : Option (Quote × Cache) :=
  match cacheLookup cache symbol with
  | some r =>
    match r.last_price with
    | some p =>
      if p ≠ 0 then
        some ({ price := some p, previous := none, name := r.name,
                source := "cache_fallback", timestamp := r.last_timestamp }, cache)
      else none
    | none => none
  | none => none

/-- The price resolver as the spec words it: the tiers attempted strictly
in order, each attempted exactly when every earlier tier produced no
usable price, with total failure yielding the `"none"` quote. -/
def resolve_price_spec (env : PriceEnv) (cache : Cache) (symbol : String) : Quote × Cache :=
  (((((tierLive env cache symbol).orElse
      (fun _ => tierHist env.hist5d "yfinance_history" (specName env) cache symbol)).orElse
      (fun _ => tierHist env.hist1mo "yfinance_history_1mo" (specName env) cache symbol)).orElse
      (fun _ => tierAk env cache symbol)).orElse
      (fun _ => tierCacheOpt cache symbol)).getD (noQuote, cache)

/-!  Batch resolution path of `02_股票查詢.py`. -/

/-- Per-symbol result of `batch_download_prices`: the close of the bulk
1-day download if it parsed, else the close of a per-symbol 5-day
download, else of a 1-month download; exceptions and empty frames give
`none`. -/
def batch_download_price (env : PriceEnv) : Option ℚ :=
  match env.bulk1d with
  | some v => some v
  | none =>
    match (match env.dl5d with
           | Res.throw => none
           | Res.ok h => (h.getLast?).map Prod.snd) with
    | some v => some v
    | none =>
      match env.dl1mo with
      | Res.throw => none
      | Res.ok h => (h.getLast?).map Prod.snd

/-- The price/source/timestamp columns of one row of the query-results
table. -/
structure RowResult where
  price : Option ℚ
  source : Option String
  timestamp : Option String
deriving DecidableEq

/-- Python `symbols_cache.get(symbol, {}).get("last_timestamp") or "N/A"`. -/
def cachedTimestampOrNA (cache : Cache) (symbol : String) : String :=
  match cacheLookup cache symbol with
  | some r =>
    match r.last_timestamp with
    | some t => if t = "" then "N/A" else t
    | none => "N/A"
  | none => "N/A"

/-- One symbol of the main query loop (with no per-region refresh
requested): use the batch price when the batch produced one, otherwise
fall back to the full `fetch_price` cascade. -/
def resolveViaBatch (env : PriceEnv) (cache : Cache) (symbol : String) : RowResult × Cache :=
  match batch_download_price env with
  | some p =>
    ({ price := some p, source := some "cache_or_download",
       timestamp := some (cachedTimestampOrNA cache symbol) }, cache)
  | none =>
    let qc := fetch_price env cache symbol
    ({ price := qc.1.price, source := some qc.1.source, timestamp := qc.1.timestamp }, qc.2)

/-!  `dividend-calculator/multi.py`: region/currency classification, FX
rate and the trailing-12-month dividend window. -/

/-- The `region_suffix` dict of `multi.py`, in its insertion order. -/
def region_suffix : List (String × String) :=
  [("TW", ".TW"), ("HK", ".HK"), ("US", ""), ("JP", ".T"), ("SH", ".SS"),
   ("SZ", ".SZ"), ("UK", ".L"), ("DE", ".DE"), ("CA", ".TO"), ("AU", ".AX")]

/-- The `region_CCY` dict of `multi.py` (note: it has no `"SZ"` entry). -/
def region_CCY : List (String × String) :=
  [("TW", "TWD"), ("HK", "HKD"), ("US", "USD"), ("JP", "JPY"), ("SH", "CNY"),
   ("UK", "GBP"), ("DE", "EUR"), ("CA", "CAD"), ("AU", "AUD")]

/-- `infer_region` of `multi.py`: first region whose non-empty suffix the
raw ticker ends with, scanning the dict in insertion order; default
`"US"`.  The ticker is used as given (no trim, no upper-casing). -/
def infer_region (ticker : String) : String :=
  match region_suffix.find? (fun p => !(p.2 == "") && endsWithS ticker p.2) with
  | some p => p.1
  | none => "US"

/-- `get_currency` of `multi.py`: `region_CCY.get(region, "USD")`. -/
def get_currency (region : String) : String :=
  match region_CCY.find? (fun p => p.1 == region) with
  | some p => p.2
  | none => "USD"

/-- External FX histories: `hist1d` is the 1-day window used by
`multi.py`, `hist1y` the 1-year window used by `app.py`, both keyed by
the pair ticker queried. -/
structure FxEnv where
  hist1d : String → List (String × ℚ)
  hist1y : String → List (String × ℚ)

/-- `get_fx_rate` of `multi.py`: `1.0` for the identity pair; otherwise
the last close of the 1-day window for `f"{base}{quote}=X"`, and the
default rate `1.0` again when the window is empty. -/
def get_fx_rate (env : FxEnv) (base : String) (quote : String) : ℚ :=
  if base == quote then 1
  else
    match (env.hist1d (base ++ quote ++ "=X")).getLast? with
    | some (_, c) => c
    | none => 1

/-- Largest event date of a dividend series (dates as day numbers). -/
def maxDate? : List (Int × ℚ) → Option Int
  | [] => none
  | (d, _) :: rest =>
    some (match maxDate? rest with
          | none => d
          | some m => max d m)

/-- The trailing-12-month dividend sum of `multi.py`/`single.py`: with
`end_date` the latest ex-date and `start_date = end_date - 365` days, sum
the per-share amounts with `start_date < date ≤ end_date`; `0.0` when the
series is empty. -/
def trailing_12m_div (dividends : List (Int × ℚ)) : ℚ :=
  match maxDate? dividends with
  | none => 0
  | some end_date =>
    ((dividends.filter
        (fun e => decide (end_date - 365 < e.1) && decide (e.1 ≤ end_date))).map
      Prod.snd).sum

/-- `annual_income_local = shares * trailing_12m_div` of `multi.py`
(`annual_dividend_income` of `single.py`). -/
def annual_income_local (shares : ℚ) (dividends : List (Int × ℚ)) : ℚ :=
  shares * trailing_12m_div dividends

/-- Upper FX-sensitivity band of `multi.py`: unchanged for HKD, else the
annual HKD figure scaled by `1.05`. -/
def annual_income_hkd_up (ccy : String) (annual_income_hkd : ℚ) : ℚ :=
  if ccy == "HKD" then annual_income_hkd else annual_income_hkd * 1.05

/-- Lower FX-sensitivity band of `multi.py`: unchanged for HKD, else the
annual HKD figure scaled by `0.95`. -/
def annual_income_hkd_down (ccy : String) (annual_income_hkd : ℚ) : ℚ :=
  if ccy == "HKD" then annual_income_hkd else annual_income_hkd * 0.95

/-!  `dividend-calculator/app.py`: FX-pair classification, latest-rate
fetch, year grouping and the sensitivity table. -/

/-- Python `s.strip()`, over the character list. -/
def pyStrip (s : String) : String :=
  ⟨((s.data.dropWhile Char.isWhitespace).reverse.dropWhile Char.isWhitespace).reverse⟩

/-- Python `s.upper()`, over the character list. -/
def pyUpper (s : String) : String :=
  ⟨s.data.map Char.toUpper⟩

/-- The `currency_map` dict of `app.py`, in its insertion order; `.HK`
maps to `None` (no conversion needed). -/
def currency_map : List (String × Option String) :=
  [(".TW", some "TWDHKD=X"), (".HK", none), (".T", some "JPYHKD=X"),
   (".SZ", some "CNYHKD=X"), (".SS", some "CNYHKD=X"), (".L", some "GBPHKD=X"),
   (".DE", some "EURHKD=X"), (".PA", some "EURHKD=X"), (".SI", some "SGDHKD=X"),
   (".AX", some "AUDHKD=X"), (".TO", some "CADHKD=X")]

/-- `get_fx_symbol` of `app.py`: trim and upper-case the ticker; `.HK`
returns `None`; otherwise the first matching suffix of `currency_map`;
default `USDHKD=X` for unsuffixed (US) tickers. -/
def get_fx_symbol (ticker : String) : Option String :=
  let t := pyUpper (pyStrip ticker)
  if endsWithS t ".HK" then none
  else
    match currency_map.find? (fun p => endsWithS t p.1) with
    | some p => p.2
    | none => some "USDHKD=X"

/-- `fetch_latest_fx` of `app.py`: the last close of the 1-year window,
raising (`ValueError`) when the window has no data at all. -/
def fetch_latest_fx (env : FxEnv) (fx_symbol : String) : Except String ℚ :=
  match (env.hist1y fx_symbol).getLast? with
  | some (_, c) => Except.ok c
  | none => Except.error ("匯率資料缺失：" ++ fx_symbol)

/-- A dividend event of `app.py`: ex-date as (calendar year, ordinal day
within the year) and the per-share amount. -/
abbrev DivEvent := (Int × Nat) × ℚ

/-- The distinct calendar years of a series, in first-appearance order
(the key set of `groupby(index.year)`). -/
def groupYears : List Int → List Int
  | [] => []
  | y :: rest => y :: (groupYears rest).filter (fun z => !(z == y))

/-- Total per-share dividend of one calendar year. -/
def annualSumLocal (divs : List DivEvent) (y : Int) : ℚ :=
  ((divs.filter (fun e => e.1.1 == y)).map Prod.snd).sum

/-- Grouping of the dividend series by the year of its date index, summed
per year, as a (year, per-share total) series (`app.py`). -/
def annual_div_local (divs : List DivEvent) : List (Int × ℚ) :=
  (groupYears (divs.map (fun e => e.1.1))).map (fun y => (y, annualSumLocal divs y))

/-- `convert_series_to_hkd` of `app.py`: identity for `None` (HKD), else
every entry multiplied by the one latest rate of `fetch_latest_fx`. -/
def convert_series_to_hkd (env : FxEnv) (series_local : List (Int × ℚ))
    (fx_symbol : Option String) : Except String (List (Int × ℚ)) :=
  match fx_symbol with
  | none => Except.ok series_local
  | some f =>
    match fetch_latest_fx env f with
    | Except.error e => Except.error e
    | Except.ok latest_fx =>
      Except.ok (series_local.map (fun p => (p.1, p.2 * latest_fx)))

/-- `annual_dividend_income_hkd` of `app.py`: group by calendar year, sum
per-share amounts, multiply by the share count, convert via the symbol's
FX pair. -/
def annual_dividend_income_hkd (env : FxEnv) (ticker : String)
    (divs : List DivEvent) (shares : ℚ) : Except String (List (Int × ℚ)) :=
  convert_series_to_hkd env
    ((annual_div_local divs).map (fun p => (p.1, p.2 * shares)))
    (get_fx_symbol ticker)

/-- The lower sensitivity table of `app.py`: `df * (1 - delta)` applied to
every column of the results table alike. -/
def app_sens_low (df : List (String × ℚ)) (delta : ℚ) : List (String × ℚ) :=
  df.map (fun p => (p.1, p.2 * (1 - delta)))

/-- The upper sensitivity table of `app.py`: `df * (1 + delta)` applied to
every column of the results table alike. -/
def app_sens_high (df : List (String × ℚ)) (delta : ℚ) : List (String × ℚ) :=
  df.map (fun p => (p.1, p.2 * (1 + delta)))

/-!  Crash model for the two save routines.  A save is a sequence of file
operations; a crash may happen after any number of completed operations,
possibly in the middle of the one in flight.  A write interrupted mid-way
leaves arbitrary partial content at its target; a rename is atomic. -/

/-- One file operation of a save routine. -/
inductive FsOp where
  | writeCanon : String → FsOp
  | writeTemp : String → FsOp
  | copyCanonToBackup : FsOp
  | renameTempToCanon : FsOp
deriving DecidableEq

/-- Contents of the canonical path, the temporary file and the backup
file (`none` = the file does not exist). -/
structure Fs where
  canon : Option String
  temp : Option String
  backup : Option String
deriving DecidableEq

/-- Effect of one completed file operation. -/
def applyOp (fs : Fs) : FsOp → Fs
  | FsOp.writeCanon s => { fs with canon := some s }
  | FsOp.writeTemp s => { fs with temp := some s }
  | FsOp.copyCanonToBackup => { fs with backup := fs.canon }
  | FsOp.renameTempToCanon => { canon := fs.temp, temp := none, backup := fs.backup }

/-- Effect of an operation interrupted by a crash: a write leaves the
partial content `pre` at its target, a backup copy leaves partial backup
content, a rename either has not happened or has happened (no middle
state). -/
def applyMid (fs : Fs) (op : FsOp) (pre : String) : Fs :=
  match op with
  | FsOp.writeCanon _ => { fs with canon := some pre }
  | FsOp.writeTemp _ => { fs with temp := some pre }
  | FsOp.copyCanonToBackup => { fs with backup := some pre }
  | FsOp.renameTempToCanon => fs

/-- State after the first `k` operations completed and — when `pre?` is
`some pre` and a `k`-th operation exists — that next operation crashed
mid-way leaving `pre`. -/
def crashState (init : Fs) (prog : List FsOp) (k : Nat) (pre? : Option String) : Fs :=
  let base := (prog.take k).foldl applyOp init
  match prog.get? k, pre? with
  | some op, some pre => applyMid base op pre
  | _, _ => base

/-- Crash atomicity of a save routine: at every crash point the canonical
path holds either the old content or the full new content — never a
partially written file. -/
def crashSafe (progOf : Fs → List FsOp) (newContent : String) : Prop :=
  ∀ (init : Fs) (k : Nat) (pre? : Option String),
    (crashState init (progOf init) k pre?).canon = init.canon ∨
    (crashState init (progOf init) k pre?).canon = some newContent

/-- `save_symbols` of `02_股票查詢.py`: one direct
`SYMBOLS_PATH.write_text(...)` onto the canonical path. -/
def save_symbols_prog (_ : Fs) (newContent : String) : List FsOp :=
  [FsOp.writeCanon newContent]

/-- `save_local_portfolio` of `01_輸入.py` (inside the file lock): back up
the existing canonical file if present, write the new content to a
temporary file, then move the temporary file onto the canonical path. -/
def save_local_portfolio_prog (init : Fs) (newContent : String) : List FsOp :=
  (if init.canon.isSome then [FsOp.copyCanonToBackup] else []) ++
    [FsOp.writeTemp newContent, FsOp.renameTempToCanon]

/-!  `lookup_name` of `02_股票查詢.py`. -/

/-- External inputs of `lookup_name`: the (`longName`, `shortName`) pair
of `yf.Ticker(symbol).info` (the call may raise), and the scraped
TWSE / US name tables. -/
structure NameEnv where
  yfNames : Res (Option String × Option String)
  twse_map : List (String × String)
  us_map : List (String × String)

/-- Core of Python `s.replace(".TW", "")`. -/
def dropTW : List Char → List Char
  | '.' :: 'T' :: 'W' :: rest => dropTW rest
  | c :: rest => c :: dropTW rest
  | [] => []

/-- Python `symbol.replace(".TW", "")`. -/
def replaceTW (s : String) : String :=
  ⟨dropTW s.data⟩

/-- Python `s.isalpha()`: non-empty and all alphabetic. -/
def pyIsAlpha (s : String) : Bool :=
  !s.data.isEmpty && s.data.all Char.isAlpha

/-- Python `table.get(key, None)` on a scraped name table. -/
def mapGet (table : List (String × String)) (key : String) : Option String :=
  (table.find? (fun p => p.1 == key)).map Prod.snd

/-- `lookup_name` of `02_股票查詢.py`: return a cached truthy name
directly; otherwise resolve a name (yfinance, then the `.HK` / `.TW` / US
special cases, finally the symbol itself), store it in the cache — for an
existing record touching only its `name` field — and persist.  Returns the
name and the resulting cache. -/
def lookup_name (env : NameEnv) (cache : Cache) (symbol : String) : String × Cache :=
  match cacheLookup cache symbol with
  | some r =>
    if isTruthyS r.name then (r.name.getD "", cache)
    else
      let n0 : Option String :=
        match env.yfNames with
        | Res.throw => none
        | Res.ok (l, s) => pyOrS l s
      let n1 : Option String :=
        if !(isTruthyS n0) && endsWithS symbol ".HK" then some symbol else n0
      let n2 : Option String :=
        if !(isTruthyS n1) && endsWithS symbol ".TW" then
          mapGet env.twse_map (replaceTW symbol)
        else if !(isTruthyS n1) && pyIsAlpha symbol then mapGet env.us_map symbol
        else n1
      let nameF : String := if isTruthyS n2 then n2.getD "" else symbol
      (nameF, cacheUpdate cache symbol { r with name := some nameF })
  | none =>
    let n0 : Option String :=
      match env.yfNames with
      | Res.throw => none
      | Res.ok (l, s) => pyOrS l s
    let n1 : Option String :=
      if !(isTruthyS n0) && endsWithS symbol ".HK" then some symbol else n0
    let n2 : Option String :=
      if !(isTruthyS n1) && endsWithS symbol ".TW" then
        mapGet env.twse_map (replaceTW symbol)
      else if !(isTruthyS n1) && pyIsAlpha symbol then mapGet env.us_map symbol
      else n1
    let nameF : String := if isTruthyS n2 then n2.getD "" else symbol
    (nameF, cacheUpdate cache symbol
      { name := some nameF, last_price := none, last_timestamp := none })

/-!  Concrete environments used by the counterexamples and witnesses. -/

/-- An `info` record with every field absent. -/
def infoNone : TickerInfo :=
  { regularMarketPrice := none, currentPrice := none, previousClose := none,
    regularMarketPreviousClose := none, shortName := none, longName := none }

/-- Environment where the live-quote call raises but the 5-day history
has a row: the code skips the history tiers, the spec cascade does not. -/
def c1cexEnv : PriceEnv :=
  { info := Res.throw, hist5d := Res.ok [("2024-01-02", 10)], hist1mo := Res.ok [],
    ak_daily := fun _ => Res.throw, now := "T",
    bulk1d := none, dl5d := Res.throw, dl1mo := Res.throw }

/-- An `info` record whose live price is 100. -/
def infoLive100 : TickerInfo :=
  { regularMarketPrice := some 100, currentPrice := none, previousClose := some 99,
    regularMarketPreviousClose := none, shortName := some "Apple", longName := none }

/-- Environment whose live quote succeeds and whose calls do not raise. -/
def c1wEnv : PriceEnv :=
  { info := Res.ok infoLive100,
    hist5d := Res.ok [], hist1mo := Res.ok [], ak_daily := fun _ => Res.ok [],
    now := "T", bulk1d := none, dl5d := Res.throw, dl1mo := Res.throw }

/-- Environment where every price tier fails without raising. -/
def c2wEnv : PriceEnv :=
  { info := Res.ok infoNone, hist5d := Res.ok [], hist1mo := Res.ok [],
    ak_daily := fun _ => Res.ok [], now := "T",
    bulk1d := none, dl5d := Res.throw, dl1mo := Res.throw }

/-- A cache holding one good record for an unrelated symbol. -/
def c2wCache : Cache :=
  [("X", { name := some "n", last_price := some 7, last_timestamp := some "t" })]

/-- Environment where the bulk 1-day download and the live quote both
succeed but disagree (close 99 versus live 100). -/
def c3cexEnv : PriceEnv :=
  { info := Res.ok infoLive100,
    hist5d := Res.ok [], hist1mo := Res.ok [], ak_daily := fun _ => Res.ok [],
    now := "T", bulk1d := some 99, dl5d := Res.throw, dl1mo := Res.throw }

/-- Environment where every batch download tier fails. -/
def c3wEnv : PriceEnv :=
  { info := Res.ok infoLive100,
    hist5d := Res.ok [], hist1mo := Res.ok [], ak_daily := fun _ => Res.ok [],
    now := "T", bulk1d := none, dl5d := Res.throw, dl1mo := Res.throw }

/-- FX environment with no data in any lookback window. -/
def emptyFxEnv : FxEnv :=
  { hist1d := fun _ => [], hist1y := fun _ => [] }

/-- FX environment whose 1-year window ends with a rate of 2. -/
def c8wEnv : FxEnv :=
  { hist1d := fun _ => [], hist1y := fun _ => [("2024-06-03", 2)] }

/-- Name environment whose yfinance call raises. -/
def c10Env : NameEnv :=
  { yfNames := Res.throw, twse_map := [], us_map := [] }

/-- A cache holding one record with a name, price and timestamp. -/
def c10Cache : Cache :=
  [("0005.HK", { name := some "HSBC", last_price := some 40, last_timestamp := some "t0" })]

/-!  Helper lemmas. -/

theorem cacheLookup_update_self (c : Cache) (s : String) (r : CacheRecord) :
    cacheLookup (cacheUpdate c s r) s = some r := by
  induction c with
  | nil => simp [cacheUpdate, cacheLookup]
  | cons kv rest ih =>
    by_cases h : kv.1 = s
    · simp [cacheUpdate, cacheLookup, h]
    · simpa [cacheUpdate, cacheLookup, h, List.find?] using ih

theorem cacheTier_snd (cache : Cache) (symbol : String) : (cacheTier cache symbol).2 = cache := by
  unfold cacheTier
  rcases h : cacheLookup cache symbol with _ | r <;> simp only []
  rcases hp : r.last_price with _ | p <;> simp only []
  by_cases h0 : p = 0 <;> simp [h0]

theorem cacheTier_eq_spec (cache : Cache) (symbol : String) :
    cacheTier cache symbol = (tierCacheOpt cache symbol).getD (noQuote, cache) := by
  unfold cacheTier tierCacheOpt
  rcases h : cacheLookup cache symbol with _ | r <;> simp only []
  · rfl
  · rcases hp : r.last_price with _ | p <;> simp only []
    · rfl
    · by_cases h0 : p = 0 <;> simp [h0]

theorem akshareTier_eq_spec (env : PriceEnv) (cache : Cache) (symbol : String) :
    akshareTier env cache symbol =
      ((tierAk env cache symbol).orElse (fun _ => tierCacheOpt cache symbol)).getD
        (noQuote, cache) := by
  unfold akshareTier tierAk
  by_cases hk : endsWithS symbol ".HK" = true
  · simp only [hk, if_true]
    rcases ha : env.ak_daily (zfill 5 (replaceHK symbol)) with _ | df <;> simp only []
    · simpa using cacheTier_eq_spec cache symbol
    · rcases hl : df.getLast? with _ | ⟨ts, c⟩ <;> simp only []
      · simpa using cacheTier_eq_spec cache symbol
      · simp
  · simp only [hk, if_false, Bool.false_eq_true]
    simpa using cacheTier_eq_spec cache symbol

theorem akshareTier_price_none (env : PriceEnv) (cache : Cache) (symbol : String) :
    (akshareTier env cache symbol).1.price = none → (akshareTier env cache symbol).2 = cache := by
  unfold akshareTier
  by_cases hk : endsWithS symbol ".HK" = true
  · simp only [hk, if_true]
    rcases ha : env.ak_daily (zfill 5 (replaceHK symbol)) with _ | df <;> simp only []
    · exact fun _ => cacheTier_snd cache symbol
    · rcases hl : df.getLast? with _ | ⟨ts, c⟩ <;> simp only []
      · exact fun _ => cacheTier_snd cache symbol
      · intro hcontra; simp at hcontra
  · simp only [hk, if_false, Bool.false_eq_true]
    exact fun _ => cacheTier_snd cache symbol

theorem fetch_price_price_none_cache (env : PriceEnv) (cache : Cache) (symbol : String) :
    (fetch_price env cache symbol).1.price = none → (fetch_price env cache symbol).2 = cache := by
  unfold fetch_price
  rcases hi : env.info with _ | i <;> simp only []
  · exact akshareTier_price_none env cache symbol
  · rcases hp : pyOrQ i.regularMarketPrice i.currentPrice with _ | p <;> simp only []
    · rcases hh5 : env.hist5d with _ | l5 <;> simp only []
      · exact akshareTier_price_none env cache symbol
      · rcases hl5 : l5.getLast? with _ | ⟨ts, c⟩ <;> simp only []
        · rcases h1 : env.hist1mo with _ | l1 <;> simp only []
          · exact akshareTier_price_none env cache symbol
          · rcases hl1 : l1.getLast? with _ | ⟨ts1, c1⟩ <;> simp only []
            · exact akshareTier_price_none env cache symbol
            · intro hcontra; simp at hcontra
        · intro hcontra; simp at hcontra
    · intro hcontra; simp at hcontra

/-!  Claim theorems. -/

/-- C1 (counterexample): with the live-quote call raising an exception
while the 5-day history has a row, `fetch_price` is not the strict
tier-by-tier cascade the claim states: the code skips the Yahoo history
tiers (returning the unpriced `"none"` quote here) while the spec cascade
prices the symbol from the 5-day history. -/
theorem fetch_price_tier_skip_counterexample :
    fetch_price c1cexEnv [] "2330.TW" ≠ resolve_price_spec c1cexEnv [] "2330.TW" := by
  decide

/-- C1 (amended): whenever the live-quote and 5-day-history calls do not
raise (tiers fail only by empty results), `fetch_price` equals the
ordered first-success tier cascade `resolve_price_spec` — in particular
failures are swallowed, each later tier runs only when every earlier one
produced no usable price, and total failure yields the `"none"` quote
with price absent. -/
theorem fetch_price_eq_spec_of_no_throw (env : PriceEnv) (cache : Cache) (symbol : String)
    (hinfo : env.info ≠ Res.throw) (h5 : env.hist5d ≠ Res.throw) :
    fetch_price env cache symbol = resolve_price_spec env cache symbol := by
  rcases hi : env.info with _ | i
  · exact absurd hi hinfo
  rcases hh5 : env.hist5d with _ | l5
  · exact absurd hh5 h5
  unfold fetch_price resolve_price_spec tierLive tierHist specName
  rw [hi, hh5]
  simp only []
  rcases hp : pyOrQ i.regularMarketPrice i.currentPrice with _ | p <;> simp only []
  · rcases hl5 : l5.getLast? with _ | ⟨ts, c⟩ <;> simp only []
    · rcases h1 : env.hist1mo with _ | l1 <;> simp only []
      · simpa using akshareTier_eq_spec env cache symbol
      · rcases hl1 : l1.getLast? with _ | ⟨ts1, c1⟩ <;> simp only []
        · simpa using akshareTier_eq_spec env cache symbol
        · simp
    · simp
  · simp

/-- C1 (witness): the amended equivalence applied to a concrete
environment whose calls do not raise. -/
theorem fetch_price_eq_spec_witness :
    fetch_price c1wEnv [] "AAPL" = resolve_price_spec c1wEnv [] "AAPL" :=
  fetch_price_eq_spec_of_no_throw c1wEnv [] "AAPL" (by decide) (by decide)

/-- C2: a resolution that returns an absent price leaves the cache — and
hence the persisted record of every symbol — exactly as it was, and a
resolution that changed the cache produced a non-absent price. -/
theorem fetch_price_cache_monotonic (env : PriceEnv) (cache : Cache) (symbol : String) :
    ((fetch_price env cache symbol).1.price = none → (fetch_price env cache symbol).2 = cache) ∧
    ((fetch_price env cache symbol).2 ≠ cache → (fetch_price env cache symbol).1.price ≠ none) :=
  ⟨fetch_price_price_none_cache env cache symbol,
   fun hne hp => hne (fetch_price_price_none_cache env cache symbol hp)⟩

/-- C2 (witness): with every tier failing, the concrete cache is
unchanged by the call. -/
theorem fetch_price_cache_monotonic_witness :
    (fetch_price c2wEnv c2wCache "AAPL").2 = c2wCache :=
  (fetch_price_cache_monotonic c2wEnv c2wCache "AAPL").1 (by decide)

/-- C3 (counterexample): with fixed source responses — bulk 1-day close
99, live quote 100 — the batch path and the single-symbol cascade price
the same symbol differently, so batch is not a pure optimization. -/
theorem batch_single_divergence_counterexample :
    (resolveViaBatch c3cexEnv [] "AAPL").1.price ≠ (fetch_price c3cexEnv [] "AAPL").1.price := by
  decide

/-- C3 (amended): for a symbol the batch download tiers cannot price, the
batch path invokes `fetch_price`, so price, source, timestamp and cache
effect coincide with the single-symbol cascade. -/
theorem batch_fallback_eq_fetch_price (env : PriceEnv) (cache : Cache) (symbol : String)
    (h : batch_download_price env = none) :
    (resolveViaBatch env cache symbol).1.price = (fetch_price env cache symbol).1.price ∧
    (resolveViaBatch env cache symbol).1.source = some (fetch_price env cache symbol).1.source ∧
    (resolveViaBatch env cache symbol).1.timestamp =
      (fetch_price env cache symbol).1.timestamp ∧
    (resolveViaBatch env cache symbol).2 = (fetch_price env cache symbol).2 := by
  unfold resolveViaBatch
  rw [h]
  exact ⟨rfl, rfl, rfl, rfl⟩

/-- C3 (witness): the amended agreement applied to a concrete environment
whose batch downloads all fail. -/
theorem batch_fallback_eq_fetch_price_witness :
    (resolveViaBatch c3wEnv [] "MSFT").1.price = (fetch_price c3wEnv [] "MSFT").1.price :=
  (batch_fallback_eq_fetch_price c3wEnv [] "MSFT" (by decide)).1

/-- C4 (counterexample): with `base ≠ quote` and an empty lookback
window, `multi.py`'s `get_fx_rate` does not fail — it returns the default
rate `1.0`. -/
theorem get_fx_rate_default_counterexample :
    "USD" ≠ "HKD" ∧ emptyFxEnv.hist1d "USDHKD=X" = [] ∧
    get_fx_rate emptyFxEnv "USD" "HKD" = 1 := by
  refine ⟨by decide, rfl, by decide⟩

/-- C4 (amended): when the lookback window returns no data at all,
`app.py`'s `fetch_latest_fx` fails with an explicit error, while
`multi.py`'s `get_fx_rate` (for `base ≠ quote`) silently returns the
default rate `1.0`. -/
theorem fx_missing_window (env : FxEnv) (base : String) (quote fx_symbol : String)
    (hbq : base ≠ quote)
    (h1 : env.hist1d (base ++ quote ++ "=X") = [])
    (h2 : env.hist1y fx_symbol = []) :
    get_fx_rate env base quote = 1 ∧
    fetch_latest_fx env fx_symbol = Except.error ("匯率資料缺失：" ++ fx_symbol) := by
  constructor
  · unfold get_fx_rate
    rw [if_neg (by simpa using hbq), h1]
    rfl
  · unfold fetch_latest_fx
    rw [h2]
    rfl

/-- C4 (witness): the missing-window behaviour at a concrete empty
environment. -/
theorem fx_missing_window_witness :
    get_fx_rate emptyFxEnv "TWD" "HKD" = 1 ∧
    fetch_latest_fx emptyFxEnv "TWDHKD=X" = Except.error ("匯率資料缺失：" ++ "TWDHKD=X") :=
  fx_missing_window emptyFxEnv "TWD" "HKD" "TWDHKD=X" (by decide) rfl rfl

/-- C5: for dividend events at dates `[D-400, D-200, D-100, D]` with
per-share amounts `[1, 2, 3, 4]` and 10 shares, the trailing window
ending at the latest ex-date `D` keeps exactly the events with
`D - 365 < date ≤ D` — the event at `D-400` is excluded — so the local
income is `(2+3+4)*10 = 90`. -/
theorem trailing_12m_window_income (D : Int) :
    annual_income_local 10 [(D - 400, 1), (D - 200, 2), (D - 100, 3), (D, 4)] = 90 := by
  have hmax : maxDate? [(D - 400, 1), (D - 200, 2), (D - 100, 3), (D, 4)] = some D := by
    simp only [maxDate?]
    congr 1
    omega
  have h1 : (decide (D - 365 < D - 400) && decide (D - 400 ≤ D)) = false := by
    simp only [Bool.and_eq_false_iff, decide_eq_false_iff_not]
    left; omega
  have h2 : (decide (D - 365 < D - 200) && decide (D - 200 ≤ D)) = true := by
    simp only [Bool.and_eq_true, decide_eq_true_eq]
    omega
  have h3 : (decide (D - 365 < D - 100) && decide (D - 100 ≤ D)) = true := by
    simp only [Bool.and_eq_true, decide_eq_true_eq]
    omega
  have h4 : (decide (D - 365 < D) && decide (D ≤ D)) = true := by
    simp only [Bool.and_eq_true, decide_eq_true_eq]
    omega
  unfold annual_income_local trailing_12m_div
  rw [hmax]
  simp only [List.filter_cons, List.filter_nil, h1, h2, h3, h4, if_true, if_false]
  norm_num

/-- C6 (counterexample): for the `.HK` symbol (local currency = reporting
currency, `get_fx_symbol` is `None`), `app.py`'s sensitivity table still
scales the converted figure by `1 - delta`: the band does not collapse to
the unperturbed value. -/
theorem sens_bands_counterexample :
    get_fx_symbol "0005.HK" = none ∧
    app_sens_low [("0005.HK", 2500)] 0.05 ≠ [("0005.HK", 2500)] := by
  refine ⟨by decide, ?_⟩
  simp [app_sens_low]
  norm_num

/-- C6 (amended): the bands are exactly `v*(1-delta)` and `v*(1+delta)`
(1000 gives 950 and 1050); `multi.py`'s per-stock bands collapse to the
unperturbed value exactly for HKD (the reporting currency) and otherwise
scale by `1.05` and `0.95`; `app.py`'s table applies the scaling to every
column alike (no collapse, as the counterexample shows). -/
theorem sens_bands_amended :
    app_sens_low [("X", 1000)] 0.05 = [("X", 950)] ∧
    app_sens_high [("X", 1000)] 0.05 = [("X", 1050)] ∧
    (∀ v : ℚ, annual_income_hkd_up "HKD" v = v ∧ annual_income_hkd_down "HKD" v = v) ∧
    (∀ (ccy : String) (v : ℚ), ccy ≠ "HKD" →
      annual_income_hkd_up ccy v = v * 1.05 ∧ annual_income_hkd_down ccy v = v * 0.95) := by
  refine ⟨?_, ?_, ?_, ?_⟩
  · simp [app_sens_low]; norm_num
  · simp [app_sens_high]; norm_num
  · intro v; constructor <;> simp [annual_income_hkd_up, annual_income_hkd_down]
  · intro ccy v hne
    constructor <;> simp [annual_income_hkd_up, annual_income_hkd_down, hne]

/-- C6 (witness): the non-HKD lower band at a concrete currency and
figure. -/
theorem sens_bands_amended_witness :
    annual_income_hkd_down "TWD" 1000 = 1000 * 0.95 :=
  (sens_bands_amended.2.2.2 "TWD" 1000 (by decide)).2

/-- C7 (counterexample): the suffix `.SZ` is in `multi.py`'s lookup table
and classifies to region `SZ`, but the currency returned is the default
`USD`, not the `CNY` the claim's Region-to-Currency table promises
(`region_CCY` has no `SZ` entry). -/
theorem classify_counterexample :
    infer_region "000001.SZ" = "SZ" ∧ get_currency (infer_region "000001.SZ") = "USD" ∧
    get_currency (infer_region "000001.SZ") ≠ "CNY" := by
  decide

/-- C7 (amended): every known suffix classifies to its table region, and
every region except `SZ` to its table currency — `SZ` gets the default
`USD`; `multi.py`'s match is case- and trailing-whitespace-sensitive
(such tickers fall back to the `US` default), while `app.py`'s
`get_fx_symbol` is insensitive to case and surrounding whitespace and
maps `.SZ` to `CNYHKD=X`. -/
theorem classify_amended :
    infer_region "2330.TW" = "TW" ∧ get_currency "TW" = "TWD" ∧
    infer_region "0005.HK" = "HK" ∧ get_currency "HK" = "HKD" ∧
    infer_region "7203.T" = "JP" ∧ get_currency "JP" = "JPY" ∧
    infer_region "600000.SS" = "SH" ∧ get_currency "SH" = "CNY" ∧
    infer_region "000001.SZ" = "SZ" ∧ get_currency "SZ" = "USD" ∧
    infer_region "HSBA.L" = "UK" ∧ get_currency "UK" = "GBP" ∧
    infer_region "BMW.DE" = "DE" ∧ get_currency "DE" = "EUR" ∧
    infer_region "RY.TO" = "CA" ∧ get_currency "CA" = "CAD" ∧
    infer_region "BHP.AX" = "AU" ∧ get_currency "AU" = "AUD" ∧
    infer_region "AAPL" = "US" ∧ get_currency "US" = "USD" ∧
    infer_region "2330.tw" = "US" ∧ infer_region "2330.TW " = "US" ∧
    get_fx_symbol " 2330.tw " = some "TWDHKD=X" ∧
    get_fx_symbol " 000001.sz " = some "CNYHKD=X" ∧
    get_fx_symbol " 0005.hk " = none ∧
    get_fx_symbol "AAPL" = some "USDHKD=X" := by
  decide

/-- C8: `annual_dividend_income_hkd` groups the events by calendar year
of ex-date, sums the per-share amounts per year, multiplies by the share
count, and converts every year — all historical years alike — by the one
latest rate, the last close of the FX window. -/
theorem annual_income_single_rate (env : FxEnv) (ticker : String) (divs : List DivEvent)
    (shares : ℚ) (fx ts : String) (hist : List (String × ℚ)) (rate : ℚ)
    (hfx : get_fx_symbol ticker = some fx)
    (hh : env.hist1y fx = hist)
    (hlast : hist.getLast? = some (ts, rate)) :
    annual_dividend_income_hkd env ticker divs shares =
      Except.ok ((groupYears (divs.map (fun e => e.1.1))).map
        (fun y => (y, annualSumLocal divs y * shares * rate))) := by
  unfold annual_dividend_income_hkd convert_series_to_hkd fetch_latest_fx annual_div_local
  rw [hfx]
  simp only []
  rw [hh, hlast]
  simp only []
  simp [List.map_map, Function.comp, mul_assoc]

/-- C8 (witness): two years of events, 100 shares and a latest rate of 2
give per-year figures `1*100*2` and `2*100*2`. -/
theorem annual_income_single_rate_witness :
    annual_dividend_income_hkd c8wEnv "2330.TW" [((2023, 10), 1), ((2024, 5), 2)] 100 =
      Except.ok [(2023, 200), (2024, 400)] := by
  rw [annual_income_single_rate c8wEnv "2330.TW" [((2023, 10), 1), ((2024, 5), 2)] 100
      "TWDHKD=X" "2024-06-03" [("2024-06-03", 2)] 2 (by decide) rfl rfl]
  simp [groupYears, annualSumLocal]
  norm_num

/-- C9 (counterexample): `save_symbols` writes the new content directly
onto the canonical path, so a crash mid-write can leave a partial file
there — it is not crash-atomic. -/
theorem save_symbols_not_crashSafe :
    ¬ crashSafe (fun fs => save_symbols_prog fs "ab") "ab" := by
  intro h
  have hc := h ⟨some "old", none, none⟩ 0 (some "a")
  revert hc
  decide

/-- C9 (amended): `save_local_portfolio` — backup copy, write to a
temporary file, rename onto the canonical path — is atomic with respect
to crashes: at every crash point the canonical path holds either the old
content or the full new content. -/
theorem save_local_portfolio_crashSafe (newC : String) :
    crashSafe (fun fs => save_local_portfolio_prog fs newC) newC := by
  rintro ⟨canon, temp, backup⟩ k pre?
  rcases canon with _ | c0
  · rcases k with _ | _ | k
    · rcases pre? with _ | pre <;> simp [crashState, save_local_portfolio_prog, applyMid]
    · rcases pre? with _ | pre <;>
        simp [crashState, save_local_portfolio_prog, applyOp, applyMid]
    · rcases pre? with _ | pre <;>
        simp [crashState, save_local_portfolio_prog, applyOp, applyMid, List.take_nil]
  · rcases k with _ | _ | _ | k
    · rcases pre? with _ | pre <;> simp [crashState, save_local_portfolio_prog, applyMid]
    · rcases pre? with _ | pre <;>
        simp [crashState, save_local_portfolio_prog, applyOp, applyMid]
    · rcases pre? with _ | pre <;>
        simp [crashState, save_local_portfolio_prog, applyOp, applyMid]
    · rcases pre? with _ | pre <;>
        simp [crashState, save_local_portfolio_prog, applyOp, applyMid, List.take_nil]

/-- C9 (witness): the atomicity statement applied at a concrete initial
state and crash point. -/
theorem save_local_portfolio_crashSafe_witness :
    (crashState ⟨some "old", none, none⟩
        (save_local_portfolio_prog ⟨some "old", none, none⟩ "new") 1 (some "x")).canon =
      some "old" ∨
    (crashState ⟨some "old", none, none⟩
        (save_local_portfolio_prog ⟨some "old", none, none⟩ "new") 1 (some "x")).canon =
      some "new" :=
  save_local_portfolio_crashSafe "new" ⟨some "old", none, none⟩ 1 (some "x")

/-- C10: for a symbol already present in the cache, `lookup_name` leaves
the record's `last_price` and `last_timestamp` untouched — a name refresh
modifies at most the `name` field. -/
theorem lookup_name_frame (env : NameEnv) (cache : Cache) (symbol : String) (r : CacheRecord)
    (h : cacheLookup cache symbol = some r) :
    ∃ r', cacheLookup (lookup_name env cache symbol).2 symbol = some r' ∧
      r'.last_price = r.last_price ∧ r'.last_timestamp = r.last_timestamp := by
  unfold lookup_name
  rw [h]
  simp only []
  by_cases ht : isTruthyS r.name = true
  · simp only [ht, if_true]
    exact ⟨r, h, rfl, rfl⟩
  · simp only [ht, if_false, Bool.false_eq_true]
    exact ⟨_, cacheLookup_update_self cache symbol _, rfl, rfl⟩

/-- C10 (witness): the frame property at a concrete cached record. -/
theorem lookup_name_frame_witness :
    ∃ r', cacheLookup (lookup_name c10Env c10Cache "0005.HK").2 "0005.HK" = some r' ∧
      r'.last_price = some 40 ∧ r'.last_timestamp = some "t0" :=
  lookup_name_frame c10Env c10Cache "0005.HK"
    { name := some "HSBC", last_price := some 40, last_timestamp := some "t0" } (by decide)

end Learning
